import Mathlib

/-!
# Verification of the autodoc fragment pipeline

Shallow embedding of the core of the `autodoc` repository (Rust), covering:

* `src/config/mod.rs` — the `DocumentMetadata` record (all front-matter keys);
* `src/discovery/mod.rs` — `MetadataParser::merge_metadata`, `merge_missing`,
  `extract_frontmatter`, and the natural-order sorting step of
  `FileDiscovery::discover_and_parse_markdown_files`;
* `src/builders/mod.rs` — `PdfBuilder` argument assembly (`add_metadata_args`,
  `detect_babel_lang`, `build_pandoc_args`) and subprocess outcome handling;
* `src/errors.rs` — the `AutoDocError` enum (spelled `DocPilotError` in some
  modules of the repository; both names refer to the single enum of
  `src/errors.rs`);
* `src/dependencies.rs` — `DependencyChecker::validate_for_build`;
* `src/watcher.rs` — `FileWatcher::watch_and_build`'s event loop,
  `should_rebuild`, and `build_format`;
* `src/main.rs` — the `Build` command flow.

External collaborators (the filesystem walk, the YAML parser `serde_yaml`,
the `pandoc` subprocess, the `notify` event source) are modelled as explicit
parameters: the filesystem walk by the list of files it yielded, the YAML
parser by a function argument, subprocess execution by an oracle record.
File contents are modelled as `List Char` (Rust `String` contents);
filenames and flag strings as Lean `String`.
-/

namespace AutoDoc

/-- Opaque model of `serde_yaml::Error` (the YAML parser is an external
collaborator; only the identity of the error value matters here). -/
structure YamlError where
  msg : String
  deriving DecidableEq, Repr

/-- `AutoDocError` from `src/errors.rs` (referred to as `DocPilotError` in
`src/builders/mod.rs` and `src/dependencies.rs`). I/O and directory-walk
errors carry their message text only. -/
inductive AutoDocError where
  | Io (msg : String)
  | Yaml (e : YamlError)
  | WalkDir (msg : String)
  | Config (message : String)
  | Build (message : String)
  | Dependency (tool : String) (hint : String)
  | FileNotFound (path : String)
  deriving DecidableEq, Repr

/-- `DocumentMetadata` from `src/config/mod.rs`, with every field of the Rust
struct. `u8` fields are modelled as `Nat`; the `custom` flattened map of
unrecognized keys is modelled as an association list whose values are the
opaque raw YAML values (modelled as strings). -/
structure DocumentMetadata where
  title : Option String
  author : Option (List String)
  date : Option String
  subtitle : Option String
  lang : Option String
  babel_lang : Option String
  top_level_division : Option String
  numbersections : Option Bool
  secnumdepth : Option Nat
  toc : Option Bool
  toc_depth : Option Nat
  lof : Option Bool
  lot : Option Bool
  documentclass : Option String
  classoption : Option (List String)
  geometry : Option (List String)
  fontsize : Option String
  mainfont : Option String
  sansfont : Option String
  monofont : Option String
  bibliography : Option (List String)
  csl : Option String
  link_citations : Option Bool
  colorlinks : Option Bool
  linkcolor : Option String
  urlcolor : Option String
  citecolor : Option String
  book : Option Bool
  custom : List (String × String)
  deriving DecidableEq, Repr

/-- `DocumentMetadata::default()`: the struct uses `#[derive(Default)]`, so
every `Option` field is `None` and the custom map is empty. -/
def DocumentMetadata.default : DocumentMetadata where
  title := none
  author := none
  date := none
  subtitle := none
  lang := none
  babel_lang := none
  top_level_division := none
  numbersections := none
  secnumdepth := none
  toc := none
  toc_depth := none
  lof := none
  lot := none
  documentclass := none
  classoption := none
  geometry := none
  fontsize := none
  mainfont := none
  sansfont := none
  monofont := none
  bibliography := none
  csl := none
  link_citations := none
  colorlinks := none
  linkcolor := none
  urlcolor := none
  citecolor := none
  book := none
  custom := []

/-- `MarkdownFile` from `src/config/mod.rs`. The path is modelled as the
path string; `last_modified` (`SystemTime`) as a natural number timestamp. -/
structure MarkdownFile where
  path : String
  metadata : DocumentMetadata
  content : List Char
  has_inline_mermaid : Bool
  dependencies : List String
  last_modified : Nat
  deriving DecidableEq, Repr

/-- Helper: the run of characters after the last occurrence of `sep`
(the whole list when `sep` does not occur). `cur` accumulates the current
run in reverse. -/
def afterLastAux (sep : Char) : List Char → List Char → List Char
  | [], cur => cur.reverse
  | c :: cs, cur =>
    if c = sep then afterLastAux sep cs [] else afterLastAux sep cs (c :: cur)

/-- `Path::file_name` for our string-modelled paths: the final component
after the last `/` separator. (Rust returns `None` for paths with no final
component, e.g. a trailing separator; such paths do not arise in the
discovered-file lists modelled here.) -/
def fileName (p : String) : String :=
  String.mk (afterLastAux '/' p.data [])

/-- The in-place assignment pattern of `merge_missing`:
`if target.x.is_none() { target.x = source.x.clone(); }`. -/
def fillOpt {α : Type} (target source : Option α) : Option α :=
  if target.isNone then source else target

/-- `MetadataParser::merge_missing` (src/discovery/mod.rs lines 302-333):
fills exactly ten fields of `target` from `source` when the target field is
unset; every other field of `target` is left untouched. -/
def merge_missing (target source : DocumentMetadata) : DocumentMetadata :=
  { target with
    title := fillOpt target.title source.title
    author := fillOpt target.author source.author
    date := fillOpt target.date source.date
    lang := fillOpt target.lang source.lang
    babel_lang := fillOpt target.babel_lang source.babel_lang
    top_level_division := fillOpt target.top_level_division source.top_level_division
    numbersections := fillOpt target.numbersections source.numbersections
    documentclass := fillOpt target.documentclass source.documentclass
    mainfont := fillOpt target.mainfont source.mainfont
    sansfont := fillOpt target.sansfont source.sansfont }

/-- The first loop of `merge_metadata`: scan for a file named `00-setup.md`
(first match wins, the Rust loop `break`s) and seed the merged result from
its entire metadata; otherwise start from `DocumentMetadata::default()`. -/
def seedMetadata (files : List MarkdownFile) : DocumentMetadata :=
  match files.find? (fun f => fileName f.path = "00-setup.md") with
  | some f => f.metadata
  | none => DocumentMetadata.default

/-- `MetadataParser::merge_metadata` (src/discovery/mod.rs lines 234-251):
seed from `00-setup.md` if present, then fill still-missing values by
scanning all files in order with `merge_missing`. -/
def merge_metadata (files : List MarkdownFile) : DocumentMetadata :=
  files.foldl (fun merged f => merge_missing merged f.metadata) (seedMetadata files)

/-- First `some` value in a list of options: the value selected by the
"first non-empty wins" fill rule when the seed left a key unset. -/
def firstSome {α : Type} : List (Option α) → Option α
  | [] => none
  | x :: xs => fillOpt x (firstSome xs)

theorem fillOpt_some {α : Type} (v : α) (s : Option α) :
    fillOpt (some v) s = some v := rfl

theorem fillOpt_none {α : Type} (s : Option α) :
    fillOpt (none : Option α) s = s := rfl

theorem fillOpt_assoc {α : Type} (a b c : Option α) :
    fillOpt (fillOpt a b) c = fillOpt a (fillOpt b c) := by
  cases a <;> cases b <;> rfl

/-- Generic per-field description of the fill loop, for a field that
`merge_missing` fills: the final value is the accumulator's value if set,
otherwise the first value set by any file, in scan order. -/
theorem foldl_merge_missing_filled {β : Type} (proj : DocumentMetadata → Option β)
    (hproj : ∀ m src, proj (merge_missing m src) = fillOpt (proj m) (proj src)) :
    ∀ (files : List MarkdownFile) (acc : DocumentMetadata),
      proj (files.foldl (fun merged f => merge_missing merged f.metadata) acc) =
        fillOpt (proj acc) (firstSome (files.map (fun f => proj f.metadata))) := by
  intro files
  induction files with
  | nil => intro acc; cases h : proj acc <;> simp [firstSome, fillOpt, h]
  | cons f fs ih =>
    intro acc
    simp only [List.foldl_cons, List.map_cons, firstSome]
    rw [ih, hproj, fillOpt_assoc]

/-- Generic per-field description of the fill loop, for a field that
`merge_missing` does not touch: the final value is the accumulator's value. -/
theorem foldl_merge_missing_const {β : Type} (proj : DocumentMetadata → β)
    (hproj : ∀ m src, proj (merge_missing m src) = proj m) :
    ∀ (files : List MarkdownFile) (acc : DocumentMetadata),
      proj (files.foldl (fun merged f => merge_missing merged f.metadata) acc) = proj acc := by
  intro files
  induction files with
  | nil => intro acc; rfl
  | cons f fs ih => intro acc; simp only [List.foldl_cons]; rw [ih, hproj]

theorem seedMetadata_of_find {files : List MarkdownFile} {s : MarkdownFile}
    (h : files.find? (fun f => fileName f.path = "00-setup.md") = some s) :
    seedMetadata files = s.metadata := by
  unfold seedMetadata; rw [h]

theorem seedMetadata_of_no_setup {files : List MarkdownFile}
    (h : files.find? (fun f => fileName f.path = "00-setup.md") = none) :
    seedMetadata files = DocumentMetadata.default := by
  unfold seedMetadata; rw [h]

theorem fill_keeps {α : Type} {t s : Option α} {v : α} (h : t = some v) :
    fillOpt t s = some v := by rw [h]; rfl

/-! Per-key characterization of `merge_metadata`: for each of the ten keys
that `merge_missing` fills, the merged value is the seed's value when set,
otherwise the first value any fragment sets, in scan order. -/

theorem merge_metadata_title (files : List MarkdownFile) :
    (merge_metadata files).title =
      fillOpt (seedMetadata files).title (firstSome (files.map (fun f => f.metadata.title))) :=
  foldl_merge_missing_filled (fun m => m.title) (fun _ _ => rfl) files (seedMetadata files)

theorem merge_metadata_author (files : List MarkdownFile) :
    (merge_metadata files).author =
      fillOpt (seedMetadata files).author (firstSome (files.map (fun f => f.metadata.author))) :=
  foldl_merge_missing_filled (fun m => m.author) (fun _ _ => rfl) files (seedMetadata files)

theorem merge_metadata_date (files : List MarkdownFile) :
    (merge_metadata files).date =
      fillOpt (seedMetadata files).date (firstSome (files.map (fun f => f.metadata.date))) :=
  foldl_merge_missing_filled (fun m => m.date) (fun _ _ => rfl) files (seedMetadata files)

theorem merge_metadata_lang (files : List MarkdownFile) :
    (merge_metadata files).lang =
      fillOpt (seedMetadata files).lang (firstSome (files.map (fun f => f.metadata.lang))) :=
  foldl_merge_missing_filled (fun m => m.lang) (fun _ _ => rfl) files (seedMetadata files)

theorem merge_metadata_babel_lang (files : List MarkdownFile) :
    (merge_metadata files).babel_lang =
      fillOpt (seedMetadata files).babel_lang
        (firstSome (files.map (fun f => f.metadata.babel_lang))) :=
  foldl_merge_missing_filled (fun m => m.babel_lang) (fun _ _ => rfl) files (seedMetadata files)

theorem merge_metadata_top_level_division (files : List MarkdownFile) :
    (merge_metadata files).top_level_division =
      fillOpt (seedMetadata files).top_level_division
        (firstSome (files.map (fun f => f.metadata.top_level_division))) :=
  foldl_merge_missing_filled (fun m => m.top_level_division) (fun _ _ => rfl) files
    (seedMetadata files)

theorem merge_metadata_numbersections (files : List MarkdownFile) :
    (merge_metadata files).numbersections =
      fillOpt (seedMetadata files).numbersections
        (firstSome (files.map (fun f => f.metadata.numbersections))) :=
  foldl_merge_missing_filled (fun m => m.numbersections) (fun _ _ => rfl) files
    (seedMetadata files)

theorem merge_metadata_documentclass (files : List MarkdownFile) :
    (merge_metadata files).documentclass =
      fillOpt (seedMetadata files).documentclass
        (firstSome (files.map (fun f => f.metadata.documentclass))) :=
  foldl_merge_missing_filled (fun m => m.documentclass) (fun _ _ => rfl) files
    (seedMetadata files)

theorem merge_metadata_mainfont (files : List MarkdownFile) :
    (merge_metadata files).mainfont =
      fillOpt (seedMetadata files).mainfont
        (firstSome (files.map (fun f => f.metadata.mainfont))) :=
  foldl_merge_missing_filled (fun m => m.mainfont) (fun _ _ => rfl) files (seedMetadata files)

theorem merge_metadata_sansfont (files : List MarkdownFile) :
    (merge_metadata files).sansfont =
      fillOpt (seedMetadata files).sansfont
        (firstSome (files.map (fun f => f.metadata.sansfont))) :=
  foldl_merge_missing_filled (fun m => m.sansfont) (fun _ _ => rfl) files (seedMetadata files)

/-! The remaining keys of the schema are never touched by the fill loop:
the merged value is exactly the seed's value. -/

theorem merge_metadata_subtitle (files : List MarkdownFile) :
    (merge_metadata files).subtitle = (seedMetadata files).subtitle :=
  foldl_merge_missing_const (fun m => m.subtitle) (fun _ _ => rfl) files (seedMetadata files)

theorem merge_metadata_secnumdepth (files : List MarkdownFile) :
    (merge_metadata files).secnumdepth = (seedMetadata files).secnumdepth :=
  foldl_merge_missing_const (fun m => m.secnumdepth) (fun _ _ => rfl) files (seedMetadata files)

theorem merge_metadata_toc (files : List MarkdownFile) :
    (merge_metadata files).toc = (seedMetadata files).toc :=
  foldl_merge_missing_const (fun m => m.toc) (fun _ _ => rfl) files (seedMetadata files)

theorem merge_metadata_toc_depth (files : List MarkdownFile) :
    (merge_metadata files).toc_depth = (seedMetadata files).toc_depth :=
  foldl_merge_missing_const (fun m => m.toc_depth) (fun _ _ => rfl) files (seedMetadata files)

theorem merge_metadata_lof (files : List MarkdownFile) :
    (merge_metadata files).lof = (seedMetadata files).lof :=
  foldl_merge_missing_const (fun m => m.lof) (fun _ _ => rfl) files (seedMetadata files)

theorem merge_metadata_lot (files : List MarkdownFile) :
    (merge_metadata files).lot = (seedMetadata files).lot :=
  foldl_merge_missing_const (fun m => m.lot) (fun _ _ => rfl) files (seedMetadata files)

theorem merge_metadata_classoption (files : List MarkdownFile) :
    (merge_metadata files).classoption = (seedMetadata files).classoption :=
  foldl_merge_missing_const (fun m => m.classoption) (fun _ _ => rfl) files (seedMetadata files)

theorem merge_metadata_geometry (files : List MarkdownFile) :
    (merge_metadata files).geometry = (seedMetadata files).geometry :=
  foldl_merge_missing_const (fun m => m.geometry) (fun _ _ => rfl) files (seedMetadata files)

theorem merge_metadata_fontsize (files : List MarkdownFile) :
    (merge_metadata files).fontsize = (seedMetadata files).fontsize :=
  foldl_merge_missing_const (fun m => m.fontsize) (fun _ _ => rfl) files (seedMetadata files)

theorem merge_metadata_monofont (files : List MarkdownFile) :
    (merge_metadata files).monofont = (seedMetadata files).monofont :=
  foldl_merge_missing_const (fun m => m.monofont) (fun _ _ => rfl) files (seedMetadata files)

theorem merge_metadata_bibliography (files : List MarkdownFile) :
    (merge_metadata files).bibliography = (seedMetadata files).bibliography :=
  foldl_merge_missing_const (fun m => m.bibliography) (fun _ _ => rfl) files (seedMetadata files)

theorem merge_metadata_csl (files : List MarkdownFile) :
    (merge_metadata files).csl = (seedMetadata files).csl :=
  foldl_merge_missing_const (fun m => m.csl) (fun _ _ => rfl) files (seedMetadata files)

theorem merge_metadata_link_citations (files : List MarkdownFile) :
    (merge_metadata files).link_citations = (seedMetadata files).link_citations :=
  foldl_merge_missing_const (fun m => m.link_citations) (fun _ _ => rfl) files
    (seedMetadata files)

theorem merge_metadata_colorlinks (files : List MarkdownFile) :
    (merge_metadata files).colorlinks = (seedMetadata files).colorlinks :=
  foldl_merge_missing_const (fun m => m.colorlinks) (fun _ _ => rfl) files (seedMetadata files)

theorem merge_metadata_linkcolor (files : List MarkdownFile) :
    (merge_metadata files).linkcolor = (seedMetadata files).linkcolor :=
  foldl_merge_missing_const (fun m => m.linkcolor) (fun _ _ => rfl) files (seedMetadata files)

theorem merge_metadata_urlcolor (files : List MarkdownFile) :
    (merge_metadata files).urlcolor = (seedMetadata files).urlcolor :=
  foldl_merge_missing_const (fun m => m.urlcolor) (fun _ _ => rfl) files (seedMetadata files)

theorem merge_metadata_citecolor (files : List MarkdownFile) :
    (merge_metadata files).citecolor = (seedMetadata files).citecolor :=
  foldl_merge_missing_const (fun m => m.citecolor) (fun _ _ => rfl) files (seedMetadata files)

theorem merge_metadata_book (files : List MarkdownFile) :
    (merge_metadata files).book = (seedMetadata files).book :=
  foldl_merge_missing_const (fun m => m.book) (fun _ _ => rfl) files (seedMetadata files)

theorem merge_metadata_custom (files : List MarkdownFile) :
    (merge_metadata files).custom = (seedMetadata files).custom :=
  foldl_merge_missing_const (fun m => m.custom) (fun _ _ => rfl) files (seedMetadata files)

/-- Concrete fragments used by the witnesses below. -/
def mkFile (p : String) (m : DocumentMetadata) : MarkdownFile where
  path := p
  metadata := m
  content := []
  has_inline_mermaid := false
  dependencies := []
  last_modified := 0

def fileSetupA : MarkdownFile :=
  mkFile "00-setup.md" { DocumentMetadata.default with title := some "A" }

def fileIntroB : MarkdownFile :=
  mkFile "01-intro.md"
    { DocumentMetadata.default with title := some "B", author := some ["Bob"] }

def fileSubtitleS : MarkdownFile :=
  mkFile "01-intro.md" { DocumentMetadata.default with subtitle := some "S" }

/-- C1: if a fragment named `00-setup.md` is in the list, the merged
metadata is seeded from that fragment's entire metadata, and every key that
fragment sets survives into the merged result with that fragment's value,
no matter what any other fragment sets. For the keys the fill loop handles
this is because `fillOpt` keeps a set value; every other key is copied by
the seeding and never touched again. In particular, if `00-setup.md` sets
title "A" and a later fragment sets title "B", the merged title is "A". -/
theorem C1_setup_fragment_precedence (files : List MarkdownFile) (s : MarkdownFile)
    (h : files.find? (fun f => fileName f.path = "00-setup.md") = some s) :
    (∀ v, s.metadata.title = some v → (merge_metadata files).title = some v) ∧
    (∀ v, s.metadata.author = some v → (merge_metadata files).author = some v) ∧
    (∀ v, s.metadata.date = some v → (merge_metadata files).date = some v) ∧
    (∀ v, s.metadata.lang = some v → (merge_metadata files).lang = some v) ∧
    (∀ v, s.metadata.babel_lang = some v → (merge_metadata files).babel_lang = some v) ∧
    (∀ v, s.metadata.top_level_division = some v →
      (merge_metadata files).top_level_division = some v) ∧
    (∀ v, s.metadata.numbersections = some v → (merge_metadata files).numbersections = some v) ∧
    (∀ v, s.metadata.documentclass = some v → (merge_metadata files).documentclass = some v) ∧
    (∀ v, s.metadata.mainfont = some v → (merge_metadata files).mainfont = some v) ∧
    (∀ v, s.metadata.sansfont = some v → (merge_metadata files).sansfont = some v) ∧
    (merge_metadata files).subtitle = s.metadata.subtitle ∧
    (merge_metadata files).secnumdepth = s.metadata.secnumdepth ∧
    (merge_metadata files).toc = s.metadata.toc ∧
    (merge_metadata files).toc_depth = s.metadata.toc_depth ∧
    (merge_metadata files).lof = s.metadata.lof ∧
    (merge_metadata files).lot = s.metadata.lot ∧
    (merge_metadata files).classoption = s.metadata.classoption ∧
    (merge_metadata files).geometry = s.metadata.geometry ∧
    (merge_metadata files).fontsize = s.metadata.fontsize ∧
    (merge_metadata files).monofont = s.metadata.monofont ∧
    (merge_metadata files).bibliography = s.metadata.bibliography ∧
    (merge_metadata files).csl = s.metadata.csl ∧
    (merge_metadata files).link_citations = s.metadata.link_citations ∧
    (merge_metadata files).colorlinks = s.metadata.colorlinks ∧
    (merge_metadata files).linkcolor = s.metadata.linkcolor ∧
    (merge_metadata files).urlcolor = s.metadata.urlcolor ∧
    (merge_metadata files).citecolor = s.metadata.citecolor ∧
    (merge_metadata files).book = s.metadata.book ∧
    (merge_metadata files).custom = s.metadata.custom := by
  have hs := seedMetadata_of_find h
  exact ⟨fun v hv => by rw [merge_metadata_title, hs]; exact fill_keeps hv,
    fun v hv => by rw [merge_metadata_author, hs]; exact fill_keeps hv,
    fun v hv => by rw [merge_metadata_date, hs]; exact fill_keeps hv,
    fun v hv => by rw [merge_metadata_lang, hs]; exact fill_keeps hv,
    fun v hv => by rw [merge_metadata_babel_lang, hs]; exact fill_keeps hv,
    fun v hv => by rw [merge_metadata_top_level_division, hs]; exact fill_keeps hv,
    fun v hv => by rw [merge_metadata_numbersections, hs]; exact fill_keeps hv,
    fun v hv => by rw [merge_metadata_documentclass, hs]; exact fill_keeps hv,
    fun v hv => by rw [merge_metadata_mainfont, hs]; exact fill_keeps hv,
    fun v hv => by rw [merge_metadata_sansfont, hs]; exact fill_keeps hv,
    by rw [merge_metadata_subtitle, hs], by rw [merge_metadata_secnumdepth, hs],
    by rw [merge_metadata_toc, hs], by rw [merge_metadata_toc_depth, hs],
    by rw [merge_metadata_lof, hs], by rw [merge_metadata_lot, hs],
    by rw [merge_metadata_classoption, hs], by rw [merge_metadata_geometry, hs],
    by rw [merge_metadata_fontsize, hs], by rw [merge_metadata_monofont, hs],
    by rw [merge_metadata_bibliography, hs], by rw [merge_metadata_csl, hs],
    by rw [merge_metadata_link_citations, hs], by rw [merge_metadata_colorlinks, hs],
    by rw [merge_metadata_linkcolor, hs], by rw [merge_metadata_urlcolor, hs],
    by rw [merge_metadata_citecolor, hs], by rw [merge_metadata_book, hs],
    by rw [merge_metadata_custom, hs]⟩

/-- Witness for C1 at a concrete input: `00-setup.md` sets title "A", a
later fragment sets title "B"; the merged title is "A". -/
theorem C1_setup_fragment_precedence_witness :
    (merge_metadata [fileSetupA, fileIntroB]).title = some "A" :=
  (C1_setup_fragment_precedence [fileSetupA, fileIntroB] fileSetupA (by decide)).1
    "A" (by decide)

/-- C2 (amended): the "first non-empty value in discovery order" fill rule
holds independently per key, but only for the ten keys `merge_missing`
handles (title, author, date, lang, babel_lang, top_level_division,
numbersections, documentclass, mainfont, sansfont): for each of these, the
merged value is the seed's value when the seed set it, and otherwise the
first value any fragment sets in scan order (so a key no fragment sets
remains unset). Every other schema key keeps the seeded value and is never
filled from a fragment other than the reserved one. -/
theorem C2_first_wins_fill (files : List MarkdownFile) :
    (merge_metadata files).title =
      fillOpt (seedMetadata files).title (firstSome (files.map (fun f => f.metadata.title))) ∧
    (merge_metadata files).author =
      fillOpt (seedMetadata files).author (firstSome (files.map (fun f => f.metadata.author))) ∧
    (merge_metadata files).date =
      fillOpt (seedMetadata files).date (firstSome (files.map (fun f => f.metadata.date))) ∧
    (merge_metadata files).lang =
      fillOpt (seedMetadata files).lang (firstSome (files.map (fun f => f.metadata.lang))) ∧
    (merge_metadata files).babel_lang =
      fillOpt (seedMetadata files).babel_lang
        (firstSome (files.map (fun f => f.metadata.babel_lang))) ∧
    (merge_metadata files).top_level_division =
      fillOpt (seedMetadata files).top_level_division
        (firstSome (files.map (fun f => f.metadata.top_level_division))) ∧
    (merge_metadata files).numbersections =
      fillOpt (seedMetadata files).numbersections
        (firstSome (files.map (fun f => f.metadata.numbersections))) ∧
    (merge_metadata files).documentclass =
      fillOpt (seedMetadata files).documentclass
        (firstSome (files.map (fun f => f.metadata.documentclass))) ∧
    (merge_metadata files).mainfont =
      fillOpt (seedMetadata files).mainfont
        (firstSome (files.map (fun f => f.metadata.mainfont))) ∧
    (merge_metadata files).sansfont =
      fillOpt (seedMetadata files).sansfont
        (firstSome (files.map (fun f => f.metadata.sansfont))) ∧
    (merge_metadata files).subtitle = (seedMetadata files).subtitle ∧
    (merge_metadata files).secnumdepth = (seedMetadata files).secnumdepth ∧
    (merge_metadata files).toc = (seedMetadata files).toc ∧
    (merge_metadata files).toc_depth = (seedMetadata files).toc_depth ∧
    (merge_metadata files).lof = (seedMetadata files).lof ∧
    (merge_metadata files).lot = (seedMetadata files).lot ∧
    (merge_metadata files).classoption = (seedMetadata files).classoption ∧
    (merge_metadata files).geometry = (seedMetadata files).geometry ∧
    (merge_metadata files).fontsize = (seedMetadata files).fontsize ∧
    (merge_metadata files).monofont = (seedMetadata files).monofont ∧
    (merge_metadata files).bibliography = (seedMetadata files).bibliography ∧
    (merge_metadata files).csl = (seedMetadata files).csl ∧
    (merge_metadata files).link_citations = (seedMetadata files).link_citations ∧
    (merge_metadata files).colorlinks = (seedMetadata files).colorlinks ∧
    (merge_metadata files).linkcolor = (seedMetadata files).linkcolor ∧
    (merge_metadata files).urlcolor = (seedMetadata files).urlcolor ∧
    (merge_metadata files).citecolor = (seedMetadata files).citecolor ∧
    (merge_metadata files).book = (seedMetadata files).book ∧
    (merge_metadata files).custom = (seedMetadata files).custom :=
  ⟨merge_metadata_title files, merge_metadata_author files, merge_metadata_date files,
    merge_metadata_lang files, merge_metadata_babel_lang files,
    merge_metadata_top_level_division files, merge_metadata_numbersections files,
    merge_metadata_documentclass files, merge_metadata_mainfont files,
    merge_metadata_sansfont files, merge_metadata_subtitle files,
    merge_metadata_secnumdepth files, merge_metadata_toc files,
    merge_metadata_toc_depth files, merge_metadata_lof files, merge_metadata_lot files,
    merge_metadata_classoption files, merge_metadata_geometry files,
    merge_metadata_fontsize files, merge_metadata_monofont files,
    merge_metadata_bibliography files, merge_metadata_csl files,
    merge_metadata_link_citations files, merge_metadata_colorlinks files,
    merge_metadata_linkcolor files, merge_metadata_urlcolor files,
    merge_metadata_citecolor files, merge_metadata_book files,
    merge_metadata_custom files⟩

/-- Counterexample to C2 as stated: `subtitle` is a key of the
document-metadata schema, the reserved fragment is absent (so the key is
still unset after seeding), the only fragment sets `subtitle = "S"` — yet
the merged subtitle is unset, not the first non-empty value. -/
theorem C2_subtitle_counterexample :
    fileName fileSubtitleS.path ≠ "00-setup.md" ∧
    fileSubtitleS.metadata.subtitle = some "S" ∧
    (merge_metadata [fileSubtitleS]).subtitle = none := by decide

/-! ## Front-matter extraction (`MetadataParser::extract_frontmatter`,
src/discovery/mod.rs lines 176-190) -/

/-- The opening delimiter `"---\n"` of `content.strip_prefix("---\n")`. -/
def frontmatterOpen : List Char := ("---\n").data

/-- The closing delimiter `"\n---\n"` of `stripped.find("\n---\n")`. -/
def frontmatterClose : List Char := ("\n---\n").data

/-- `stripped.find(pat)` followed by splitting at the first occurrence:
returns the part before the first occurrence of `pat` and the part after it
(`&stripped[..end]` and `&stripped[end + pat.len()..]`), or `none` when
`pat` does not occur. -/
def splitAtFirstSub (pat : List Char) : List Char → Option (List Char × List Char)
  | [] => if pat.isEmpty then some ([], []) else none
  | c :: cs =>
    if pat.isPrefixOf (c :: cs) then some ([], (c :: cs).drop pat.length)
    else
      match splitAtFirstSub pat cs with
      | some (pre, post) => some (c :: pre, post)
      | none => none

/-- `MetadataParser::extract_frontmatter`. The YAML deserialization of the
delimited region (`serde_yaml::from_str::<DocumentMetadata>`) is an external
collaborator, passed in as `parseYaml`; its error is wrapped in
`AutoDocError::Yaml`. When the content does not start with the opening
delimiter, or the closing delimiter is not found, the function returns
default (empty) metadata and the whole original content. -/
def extract_frontmatter (parseYaml : List Char → Except YamlError DocumentMetadata)
    (content : List Char) : Except AutoDocError (DocumentMetadata × List Char) :=
  if frontmatterOpen.isPrefixOf content then
    match splitAtFirstSub frontmatterClose (content.drop frontmatterOpen.length) with
    | some (yaml_content, remaining_content) =>
      match parseYaml yaml_content with
      | Except.ok metadata => Except.ok (metadata, remaining_content)
      | Except.error e => Except.error (AutoDocError.Yaml e)
    | none => Except.ok (DocumentMetadata.default, content)
  else Except.ok (DocumentMetadata.default, content)

/-- C5: content that does not begin with the front-matter opening delimiter
parses successfully into empty (default) metadata with the original content
unchanged as the body, for any behaviour of the YAML parser. -/
theorem C5_no_frontmatter_is_ok (parseYaml : List Char → Except YamlError DocumentMetadata)
    (content : List Char) (h : frontmatterOpen.isPrefixOf content = false) :
    extract_frontmatter parseYaml content =
      Except.ok (DocumentMetadata.default, content) := by
  simp [extract_frontmatter, h]

/-- Witness for C5 at a concrete input: a body with no delimiter, and a
YAML parser that would reject everything, still yields empty metadata and
the untouched body. -/
theorem C5_no_frontmatter_is_ok_witness :
    extract_frontmatter (fun _ => Except.error ⟨"boom"⟩) ("# Hello\n").data =
      Except.ok (DocumentMetadata.default, ("# Hello\n").data) :=
  C5_no_frontmatter_is_ok _ _ (by decide)

/-- Amended C4: only the unparsable-content case is a hard failure. When
the content begins with the opening delimiter, a closing delimiter follows,
and the YAML parser rejects the delimited region, extraction returns the
wrapped parse error (never an empty-metadata fallback). A missing closing
delimiter instead falls back to empty metadata (see the counterexample). -/
theorem C4_unparsable_frontmatter_is_error
    (parseYaml : List Char → Except YamlError DocumentMetadata)
    (content yaml rest : List Char) (e : YamlError)
    (hopen : frontmatterOpen.isPrefixOf content = true)
    (hsplit : splitAtFirstSub frontmatterClose (content.drop frontmatterOpen.length) =
      some (yaml, rest))
    (hparse : parseYaml yaml = Except.error e) :
    extract_frontmatter parseYaml content = Except.error (AutoDocError.Yaml e) := by
  simp [extract_frontmatter, hopen, hsplit, hparse]

/-- Witness for the amended C4: delimiters present, parser rejects the
region, extraction fails with the wrapped YAML error. -/
theorem C4_unparsable_frontmatter_is_error_witness :
    extract_frontmatter (fun _ => Except.error ⟨"bad"⟩) ("---\ntitle: [\n---\nbody").data =
      Except.error (AutoDocError.Yaml ⟨"bad"⟩) :=
  C4_unparsable_frontmatter_is_error (fun _ => Except.error ⟨"bad"⟩)
    (("---\ntitle: [\n---\nbody").data) (("title: [").data) (("body").data) ⟨"bad"⟩
    (by rfl) (by rfl) (by rfl)

/-- Counterexample to C4 as stated: this content begins with the opening
delimiter and has no matching closing delimiter — one of the malformed
shapes the claim says must be a parse failure — yet extraction succeeds
with the empty-metadata fallback, even under a YAML parser that rejects
every input. -/
theorem C4_unclosed_frontmatter_counterexample :
    frontmatterOpen.isPrefixOf ("---\nfoo").data = true ∧
    splitAtFirstSub frontmatterClose (("---\nfoo").data.drop frontmatterOpen.length) = none ∧
    extract_frontmatter (fun _ => Except.error ⟨"unparsable"⟩) ("---\nfoo").data =
      Except.ok (DocumentMetadata.default, ("---\nfoo").data) :=
  ⟨rfl, rfl, rfl⟩

/-! ## PDF builder metadata arguments (`PdfBuilder`, src/builders/mod.rs) -/

/-- `lang.split('-').next().unwrap_or(lang)`: the primary subtag of a
language code — the prefix before the first `-` (the whole code when there
is no `-`). -/
def primarySubtag (lang : String) : String :=
  String.mk (lang.data.takeWhile (fun c => !(c == '-')))

/-- `PdfBuilder::detect_babel_lang` (src/builders/mod.rs lines 166-178):
fixed lookup table keyed by the primary subtag, falling back to
`"english"`. -/
def detect_babel_lang (lang : String) : String :=
  if primarySubtag lang = "de" then "ngerman"
  else if primarySubtag lang = "fr" then "french"
  else if primarySubtag lang = "es" then "spanish"
  else if primarySubtag lang = "it" then "italian"
  else if primarySubtag lang = "pt" then "portuguese"
  else if primarySubtag lang = "nl" then "dutch"
  else if primarySubtag lang = "ru" then "russian"
  else "english"

/-- The author string of `add_metadata_args`: the single author, or the
authors joined with `", "`. -/
def author_str (author : List String) : String :=
  if author.length = 1 then author.headD "" else String.intercalate ", " author

/-- `PdfBuilder::add_metadata_args` (src/builders/mod.rs lines 108-164):
the sequence of `--metadata` flag pushes, in source order. -/
def add_metadata_args (args : List String) (metadata : DocumentMetadata) : List String :=
  args
  ++ (match metadata.title with
      | some title => ["--metadata", "title=" ++ title]
      | none => ["--metadata", "title=Document"])
  ++ (match metadata.author with
      | some author => ["--metadata", "author=" ++ author_str author]
      | none => [])
  ++ (match metadata.date with
      | some date => ["--metadata", "date=" ++ date]
      | none => [])
  ++ (match metadata.lang with
      | some lang =>
        ["--metadata", "lang=" ++ lang]
        ++ (if metadata.babel_lang.isNone then
              ["--metadata", "babel-lang=" ++ detect_babel_lang lang]
            else [])
      | none => [])
  ++ (match metadata.babel_lang with
      | some babel_lang => ["--metadata", "babel-lang=" ++ babel_lang]
      | none => [])
  ++ (match metadata.documentclass with
      | some doc_class => ["--metadata", "documentclass=" ++ doc_class]
      | none => [])
  ++ (if metadata.book.getD false then ["--metadata", "book=true"] else [])

/-- The value of a `pre`-prefixed flag string, if it is one. -/
def stripFlagPrefixOf (pre s : String) : Option String :=
  if pre.data.isPrefixOf s.data then some (String.mk (s.data.drop pre.data.length)) else none

/-- All `babel-lang=` values among an argument list. -/
def babelLangArgs (args : List String) : List String :=
  args.filterMap (stripFlagPrefixOf "babel-lang=")

theorem stripBabel_meta : stripFlagPrefixOf "babel-lang=" "--metadata" = none := rfl

theorem stripBabel_title (t : String) :
    stripFlagPrefixOf "babel-lang=" ("title=" ++ t) = none := rfl

theorem stripBabel_title_default : stripFlagPrefixOf "babel-lang=" "title=Document" = none := rfl

theorem stripBabel_author (s : String) :
    stripFlagPrefixOf "babel-lang=" ("author=" ++ s) = none := rfl

theorem stripBabel_date (s : String) :
    stripFlagPrefixOf "babel-lang=" ("date=" ++ s) = none := rfl

theorem stripBabel_lang (s : String) :
    stripFlagPrefixOf "babel-lang=" ("lang=" ++ s) = none := rfl

theorem stripBabel_docclass (s : String) :
    stripFlagPrefixOf "babel-lang=" ("documentclass=" ++ s) = none := rfl

theorem stripBabel_book : stripFlagPrefixOf "babel-lang=" "book=true" = none := rfl

theorem stripBabel_babel (s : String) :
    stripFlagPrefixOf "babel-lang=" ("babel-lang=" ++ s) = some s := by
  unfold stripFlagPrefixOf
  rw [String.data_append]
  rw [if_pos]
  · rw [List.drop_left]
  · rw [List.isPrefixOf_iff_prefix]
    exact List.prefix_append _ _

/-- C6: when the metadata has a language code and no explicit babel
override, the assembled arguments carry exactly one `babel-lang=` value,
the one derived by the lookup table from the primary subtag; with an
explicit override they carry exactly the override instead. `"de"` derives
`"ngerman"`, and any unrecognized primary subtag derives `"english"`. -/
theorem C6_babel_lang_derivation :
    (∀ (m : DocumentMetadata) (lang : String), m.lang = some lang → m.babel_lang = none →
      babelLangArgs (add_metadata_args [] m) = [detect_babel_lang lang]) ∧
    (∀ (m : DocumentMetadata) (lang b : String), m.lang = some lang → m.babel_lang = some b →
      babelLangArgs (add_metadata_args [] m) = [b]) ∧
    detect_babel_lang "de" = "ngerman" ∧
    (∀ lang : String,
      primarySubtag lang ∉ (["de", "fr", "es", "it", "pt", "nl", "ru"] : List String) →
      detect_babel_lang lang = "english") := by
  refine ⟨?_, ?_, rfl, ?_⟩
  · intro m lang h1 h2
    rcases ht : m.title with _ | t <;> rcases ha : m.author with _ | a <;>
      rcases hd : m.date with _ | d <;> rcases hc : m.documentclass with _ | c <;>
      rcases hb : m.book with _ | b <;> (try cases b) <;>
      simp [add_metadata_args, babelLangArgs, h1, h2, ht, ha, hd, hc, hb,
        List.filterMap_append, stripBabel_meta, stripBabel_title, stripBabel_title_default,
        stripBabel_author, stripBabel_date, stripBabel_lang, stripBabel_docclass,
        stripBabel_book, stripBabel_babel]
  · intro m lang b h1 h2
    rcases ht : m.title with _ | t <;> rcases ha : m.author with _ | a <;>
      rcases hd : m.date with _ | d <;> rcases hc : m.documentclass with _ | c <;>
      rcases hb : m.book with _ | bk <;> (try cases bk) <;>
      simp [add_metadata_args, babelLangArgs, h1, h2, ht, ha, hd, hc, hb,
        List.filterMap_append, stripBabel_meta, stripBabel_title, stripBabel_title_default,
        stripBabel_author, stripBabel_date, stripBabel_lang, stripBabel_docclass,
        stripBabel_book, stripBabel_babel]
  · intro lang h
    simp only [List.mem_cons, List.not_mem_nil, or_false, not_or] at h
    obtain ⟨h1, h2, h3, h4, h5, h6, h7⟩ := h
    simp [detect_babel_lang, h1, h2, h3, h4, h5, h6, h7]

/-- Witness for C6 at a concrete input: language `"de"`, no override —
the argument list carries exactly `babel-lang=ngerman`. -/
theorem C6_babel_lang_derivation_witness :
    babelLangArgs
      (add_metadata_args [] { DocumentMetadata.default with lang := some "de" }) = ["ngerman"] := by
  have h := C6_babel_lang_derivation.1
    { DocumentMetadata.default with lang := some "de" } "de" rfl rfl
  rw [h]; rfl

/-! ## Watch scheduler (`FileWatcher`, src/watcher.rs) -/

/-- `notify::EventKind` (payload subkinds are irrelevant: the Rust match is
`Modify(_) | Create(_)`). -/
inductive EventKind where
  | any
  | access
  | create
  | modify
  | remove
  | other
  deriving DecidableEq, Repr

/-- A filesystem event: kind plus affected paths. -/
structure Event where
  kind : EventKind
  paths : List String
  deriving DecidableEq, Repr

/-- One result of `rx.recv()`: an event, or a channel failure. -/
inductive ChanMsg where
  | event (e : Event)
  | closed
  deriving DecidableEq, Repr

/-- How a finite observation of the watch loop ended: the channel failed
(`Err` from `recv`, the loop `break`s), or the supplied message trace was
exhausted with the loop still watching. -/
inductive WatchExit where
  | channelError
  | pending
  deriving DecidableEq, Repr

/-- `Path::extension` for our string-modelled paths: the part of the final
component after its last `.`; `none` when the component has no `.` other
than a leading one. -/
def extension (p : String) : Option String :=
  match (fileName p).data with
  | [] => none
  | _ :: rest =>
    if rest.contains '.' then some (String.mk (afterLastAux '.' rest [])) else none

/-- `FileWatcher::should_rebuild` (src/watcher.rs lines 81-90): only the
extensions `md`, `yaml`, `yml` qualify. -/
def should_rebuild (path : String) : Bool :=
  match extension path with
  | some "md" => true
  | some "yaml" => true
  | some "yml" => true
  | _ => false

/-- Whether an event makes the loop run a build cycle: kind `Modify(_)` or
`Create(_)`, and some affected path qualifies (the Rust inner `for` loop
`break`s after triggering one rebuild for the first qualifying path). -/
def triggersRebuild (e : Event) : Bool :=
  match e.kind with
  | EventKind.modify => e.paths.any should_rebuild
  | EventKind.create => e.paths.any should_rebuild
  | _ => false

def ChanMsg.isClosed : ChanMsg → Bool
  | ChanMsg.closed => true
  | _ => false

def ChanMsg.isTriggering : ChanMsg → Bool
  | ChanMsg.event e => triggersRebuild e
  | _ => false

/-- The `loop` of `FileWatcher::watch_and_build` (src/watcher.rs lines
51-76), run against a finite trace of channel results. `buildOk k` is the
outcome of the `k`-th build cycle triggered during watching (an external
oracle: the build may fail). Returns the number of build cycles run, the
reported outcome of each (the `error!("Build failed: ...")` /
`info!("✅ Rebuild complete")` log), and how the observation ended. The
build outcome is inspected only for reporting — never for control flow. -/
def watchLoop (buildOk : Nat → Bool) : List ChanMsg → Nat → Nat × List Bool × WatchExit
  | [], n => (n, [], WatchExit.pending)
  | ChanMsg.closed :: _, n => (n, [], WatchExit.channelError)
  | ChanMsg.event e :: rest, n =>
    if triggersRebuild e then
      let res := watchLoop buildOk rest (n + 1)
      (res.1, buildOk n :: res.2.1, res.2.2)
    else watchLoop buildOk rest n

/-- `FileWatcher::watch_and_build` around the loop: the initial build (run
before entering the loop) propagates its error with `?`, unlike build
failures during watching. -/
def watch_and_build (initialBuild : Except AutoDocError Unit) (msgs : List ChanMsg)
    (buildOk : Nat → Bool) : Except AutoDocError (Nat × List Bool × WatchExit) :=
  match initialBuild with
  | Except.error e => Except.error e
  | Except.ok _ => Except.ok (watchLoop buildOk msgs 0)

theorem watchLoop_indep (f g : Nat → Bool) :
    ∀ (msgs : List ChanMsg) (n : Nat),
      (watchLoop f msgs n).1 = (watchLoop g msgs n).1 ∧
      (watchLoop f msgs n).2.2 = (watchLoop g msgs n).2.2 := by
  intro msgs
  induction msgs with
  | nil => intro n; exact ⟨rfl, rfl⟩
  | cons m rest ih =>
    intro n
    cases m with
    | closed => exact ⟨rfl, rfl⟩
    | event e =>
      by_cases h : triggersRebuild e = true
      · simpa [watchLoop, h] using ih (n + 1)
      · simpa [watchLoop, h] using ih n

theorem watchLoop_exit_iff (f : Nat → Bool) :
    ∀ (msgs : List ChanMsg) (n : Nat),
      (watchLoop f msgs n).2.2 = WatchExit.channelError ↔ ChanMsg.closed ∈ msgs := by
  intro msgs
  induction msgs with
  | nil => intro n; simp [watchLoop]
  | cons m rest ih =>
    intro n
    cases m with
    | closed => simp [watchLoop]
    | event e =>
      by_cases h : triggersRebuild e = true
      · simp [watchLoop, h, ih]
      · simp [watchLoop, h, ih]

theorem watchLoop_count (f : Nat → Bool) :
    ∀ (msgs : List ChanMsg) (n : Nat),
      (watchLoop f msgs n).1 =
        n + ((msgs.takeWhile (fun m => !(ChanMsg.isClosed m))).countP ChanMsg.isTriggering) := by
  intro msgs
  induction msgs with
  | nil => intro n; simp [watchLoop]
  | cons m rest ih =>
    intro n
    cases m with
    | closed => simp [watchLoop, ChanMsg.isClosed]
    | event e =>
      by_cases h : triggersRebuild e = true
      · simp [watchLoop, h, ih, ChanMsg.isClosed, ChanMsg.isTriggering, List.countP_cons]
        omega
      · simp [watchLoop, h, ih, ChanMsg.isClosed, ChanMsg.isTriggering, List.countP_cons]

theorem watchLoop_reports (f : Nat → Bool) :
    ∀ (msgs : List ChanMsg) (n : Nat),
      (watchLoop f msgs n).2.1 =
        (List.range' n
          ((msgs.takeWhile (fun m => !(ChanMsg.isClosed m))).countP ChanMsg.isTriggering)).map f := by
  intro msgs
  induction msgs with
  | nil => intro n; simp [watchLoop]
  | cons m rest ih =>
    intro n
    cases m with
    | closed => simp [watchLoop, ChanMsg.isClosed]
    | event e =>
      by_cases h : triggersRebuild e = true
      · simp [watchLoop, h, ih, ChanMsg.isClosed, ChanMsg.isTriggering, List.countP_cons,
          List.range'_succ]
      · simp [watchLoop, h, ih, ChanMsg.isClosed, ChanMsg.isTriggering, List.countP_cons]

/-- C7: build failures during watching are non-fatal. For every finite
trace of channel results, the number of build cycles run, and the way the
loop ends, are independent of build outcomes (an arbitrary failing oracle
`f` versus any other `g`); the loop ends with a channel-error exit exactly
when the trace contains a channel failure (never because a build failed);
the number of build cycles equals the number of qualifying events before
the first channel failure (so after a failed build the very next qualifying
event still triggers a build); and every build outcome — failure or
success — appears in the report log. -/
theorem C7_watch_build_failure_nonfatal (msgs : List ChanMsg) (f g : Nat → Bool) (n : Nat) :
    ((watchLoop f msgs n).1 = (watchLoop g msgs n).1 ∧
      (watchLoop f msgs n).2.2 = (watchLoop g msgs n).2.2) ∧
    ((watchLoop f msgs n).2.2 = WatchExit.channelError ↔ ChanMsg.closed ∈ msgs) ∧
    (watchLoop f msgs n).1 =
      n + ((msgs.takeWhile (fun m => !(ChanMsg.isClosed m))).countP ChanMsg.isTriggering) ∧
    (watchLoop f msgs n).2.1 =
      (List.range' n
        ((msgs.takeWhile (fun m => !(ChanMsg.isClosed m))).countP ChanMsg.isTriggering)).map f :=
  ⟨watchLoop_indep f g msgs n, watchLoop_exit_iff f msgs n, watchLoop_count f msgs n,
    watchLoop_reports f msgs n⟩

/-- C10: only events of kind `Modify` or `Create` can trigger a rebuild; an
event of any other kind — in particular `Remove` — never does, even when
the affected path's extension is on the allow-list (`notes.md` qualifies,
yet a `Remove` event for it is ignored by the loop). -/
theorem C10_only_modify_create_trigger :
    (∀ e : Event, triggersRebuild e = true →
      e.kind = EventKind.modify ∨ e.kind = EventKind.create) ∧
    (∀ (f : Nat → Bool) (e : Event) (rest : List ChanMsg) (n : Nat),
      e.kind ≠ EventKind.modify → e.kind ≠ EventKind.create →
      watchLoop f (ChanMsg.event e :: rest) n = watchLoop f rest n) ∧
    should_rebuild "notes.md" = true ∧
    (∀ paths : List String, triggersRebuild (Event.mk EventKind.remove paths) = false) := by
  refine ⟨?_, ?_, by decide, fun paths => rfl⟩
  · intro e he
    cases e with
    | mk kind paths => cases kind <;> simp [triggersRebuild] at he ⊢
  · intro f e rest n h1 h2
    have ht : triggersRebuild e = false := by
      cases e with
      | mk kind paths => cases kind <;> simp_all [triggersRebuild]
    simp [watchLoop, ht]

/-- Witness for C10 at a concrete input: a `Remove` event for `notes.md`
(whose extension is on the allow-list) leaves the loop exactly as if the
event had not occurred. -/
theorem C10_only_modify_create_trigger_witness :
    watchLoop (fun _ => false) [ChanMsg.event (Event.mk EventKind.remove ["notes.md"])] 0 =
      watchLoop (fun _ => false) [] 0 :=
  C10_only_modify_create_trigger.2.1 (fun _ => false) (Event.mk EventKind.remove ["notes.md"])
    [] 0 (by decide) (by decide)

/-! ## Build orchestration (`src/builders/mod.rs`, `src/dependencies.rs`,
and the `Build` command of `src/main.rs`) -/

/-- Outcome of `Command::new(..).output()`: the spawn itself failed (e.g.
executable not found), or the process ran and exited with a status plus
captured stdout/stderr. -/
inductive SubprocessResult where
  | execError (msg : String)
  | run (success : Bool) (stdout stderr : String)
  deriving DecidableEq, Repr

/-- `ProjectConfig` from `src/config/mod.rs`; directories as strings. -/
structure ProjectConfig where
  name : String
  output_dir : String
  templates_dir : String
  images_dir : String
  exclude_files : List String
  deriving DecidableEq, Repr

/-- `ProjectConfig::default()`. -/
def ProjectConfig.default : ProjectConfig where
  name := "document"
  output_dir := "output"
  templates_dir := "templates"
  images_dir := "images"
  exclude_files := ["README.md"]

/-- The external world of a build invocation: `which` lookups, `--version`
probes, the template files found in the template directory, the platform,
and the behaviour of the `pandoc` document-conversion subprocess. -/
structure ExtEnv where
  pandocAvailable : Bool
  xelatexAvailable : Bool
  versionRun : String → SubprocessResult
  pandocRun : List String → SubprocessResult
  template : Option String
  docxTemplate : Option String
  htmlTemplate : Option String
  targetOs : String

/-- One document-conversion invocation of the external converter (the
version probes of the dependency checker are not conversions). -/
inductive ConverterCall where
  | pandoc (args : List String)
  deriving DecidableEq, Repr

/-- `PdfBuilder::build_pandoc_args` (src/builders/mod.rs lines 57-106).
`env.template` is the result of `find_template` (a template-directory
scan). Output-directory creation (`ensure_output_dir`) is a filesystem
side effect outside this model. -/
def PdfBuilder.build_pandoc_args (env : ExtEnv) (files : List MarkdownFile)
    (output_path : String) (metadata : DocumentMetadata) : List String :=
  add_metadata_args
    (["--standalone", "--listings", "--pdf-engine", "xelatex"]
      ++ (match env.template with
          | some template => ["--template", template]
          | none => [])
      ++ ["--citeproc"]
      ++ (match metadata.top_level_division with
          | some division => ["--top-level-division", division]
          | none => ["--top-level-division", "section"])
      ++ (if metadata.numbersections.getD true then ["--number-sections"] else []))
    metadata
  ++ files.map (fun f => f.path) ++ ["-o", output_path]

/-- `PdfBuilder::build` (src/builders/mod.rs lines 26-55): merge metadata,
assemble arguments, execute pandoc; a spawn failure and a non-zero exit
both map to `Build` errors with the source's message formats. The second
component records the converter invocations made. -/
def PdfBuilder.build (env : ExtEnv) (files : List MarkdownFile) (output_path : String) :
    Except AutoDocError Unit × List ConverterCall :=
  let metadata := merge_metadata files
  let args := PdfBuilder.build_pandoc_args env files output_path metadata
  match env.pandocRun args with
  | SubprocessResult.execError e =>
    (Except.error (AutoDocError.Build ("Failed to execute pandoc: " ++ e)),
      [ConverterCall.pandoc args])
  | SubprocessResult.run true _ _ => (Except.ok (), [ConverterCall.pandoc args])
  | SubprocessResult.run false _ stderr =>
    (Except.error (AutoDocError.Build ("Pandoc failed: " ++ stderr)),
      [ConverterCall.pandoc args])

/-- `DocxBuilder::build_pandoc_args` (src/builders/mod.rs lines 245-276). -/
def DocxBuilder.build_pandoc_args (env : ExtEnv) (files : List MarkdownFile)
    (output_path : String) (metadata : DocumentMetadata) : List String :=
  ["--standalone", "--to", "docx"]
  ++ (match env.docxTemplate with
      | some template => ["--reference-doc", template]
      | none => [])
  ++ ["--citeproc"]
  ++ (if metadata.numbersections.getD true then ["--number-sections"] else [])
  ++ files.map (fun f => f.path) ++ ["-o", output_path]

/-- `DocxBuilder::build` (src/builders/mod.rs lines 218-243). -/
def DocxBuilder.build (env : ExtEnv) (files : List MarkdownFile) (output_path : String) :
    Except AutoDocError Unit × List ConverterCall :=
  let metadata := merge_metadata files
  let args := DocxBuilder.build_pandoc_args env files output_path metadata
  match env.pandocRun args with
  | SubprocessResult.execError e =>
    (Except.error (AutoDocError.Build ("Failed to execute pandoc: " ++ e)),
      [ConverterCall.pandoc args])
  | SubprocessResult.run true _ _ => (Except.ok (), [ConverterCall.pandoc args])
  | SubprocessResult.run false _ stderr =>
    (Except.error (AutoDocError.Build ("Pandoc failed: " ++ stderr)),
      [ConverterCall.pandoc args])

/-- `HtmlBuilder::build_pandoc_args` (src/builders/mod.rs lines 332-363). -/
def HtmlBuilder.build_pandoc_args (env : ExtEnv) (files : List MarkdownFile)
    (output_path : String) (metadata : DocumentMetadata) : List String :=
  ["--standalone", "--to", "html5", "--self-contained", "--citeproc"]
  ++ (if metadata.numbersections.getD true then ["--number-sections"] else [])
  ++ (match env.htmlTemplate with
      | some template => ["--template", template]
      | none => [])
  ++ files.map (fun f => f.path) ++ ["-o", output_path]

/-- `HtmlBuilder::build` (src/builders/mod.rs lines 305-330). -/
def HtmlBuilder.build (env : ExtEnv) (files : List MarkdownFile) (output_path : String) :
    Except AutoDocError Unit × List ConverterCall :=
  let metadata := merge_metadata files
  let args := HtmlBuilder.build_pandoc_args env files output_path metadata
  match env.pandocRun args with
  | SubprocessResult.execError e =>
    (Except.error (AutoDocError.Build ("Failed to execute pandoc: " ++ e)),
      [ConverterCall.pandoc args])
  | SubprocessResult.run true _ _ => (Except.ok (), [ConverterCall.pandoc args])
  | SubprocessResult.run false _ stderr =>
    (Except.error (AutoDocError.Build ("Pandoc failed: " ++ stderr)),
      [ConverterCall.pandoc args])

/-- `DependencyStatus` from `src/dependencies.rs`. -/
structure DependencyStatus where
  name : String
  available : Bool
  version : Option String
  required : Bool
  install_hint : Option String
  deriving DecidableEq, Repr

/-- `DependencyChecker::get_install_hint`, with the compile-time
`cfg!(target_os = ..)` platform switch as an environment value. -/
def get_install_hint (targetOs package : String) : String :=
  if targetOs = "macos" then
    if package = "pandoc" then "brew install pandoc"
    else if package = "texlive" then "brew install --cask mactex"
    else "brew install " ++ package
  else if targetOs = "linux" then
    if package = "pandoc" then "sudo apt install pandoc"
    else if package = "texlive" then "sudo apt install texlive-xetex"
    else "sudo apt install " ++ package
  else "Install " ++ package ++ " via your package manager"

/-- `stdout.lines().next()`: the first line of the probe output (none for
empty output). -/
def first_line (s : String) : Option String :=
  if s.isEmpty then none
  else some (String.mk (s.data.takeWhile (fun c => !(c == '\n'))))

/-- `DependencyChecker::get_command_version`: a spawn failure of the
version probe is a `Build` error; otherwise the first stdout line (or
`none` on non-zero exit). -/
def get_command_version (env : ExtEnv) (cmd : String) : Except AutoDocError (Option String) :=
  match env.versionRun cmd with
  | SubprocessResult.execError e =>
    Except.error (AutoDocError.Build ("Failed to execute " ++ cmd ++ ": " ++ e))
  | SubprocessResult.run true stdout _ => Except.ok (first_line stdout)
  | SubprocessResult.run false _ _ => Except.ok none

/-- `DependencyChecker::check_pandoc` (the `?` on the version probe is the
explicit error match). -/
def check_pandoc (env : ExtEnv) : Except AutoDocError DependencyStatus :=
  match (if env.pandocAvailable then get_command_version env "pandoc" else Except.ok none) with
  | Except.error e => Except.error e
  | Except.ok version =>
    Except.ok { name := "pandoc", available := env.pandocAvailable, version := version,
                required := true, install_hint := some (get_install_hint env.targetOs "pandoc") }

/-- `DependencyChecker::check_xelatex`. -/
def check_xelatex (env : ExtEnv) : Except AutoDocError DependencyStatus :=
  match (if env.xelatexAvailable then get_command_version env "xelatex" else Except.ok none) with
  | Except.error e => Except.error e
  | Except.ok version =>
    Except.ok { name := "xelatex", available := env.xelatexAvailable, version := version,
                required := true, install_hint := some (get_install_hint env.targetOs "texlive") }

/-- `DependencyChecker::check_all`. -/
def check_all (env : ExtEnv) : Except AutoDocError (List DependencyStatus) :=
  match check_pandoc env with
  | Except.error e => Except.error e
  | Except.ok p =>
    match check_xelatex env with
    | Except.error e => Except.error e
    | Except.ok x => Except.ok [p, x]

/-- The per-format requirement test inside `validate_for_build`. -/
def required_for_format (format : String) (dep : DependencyStatus) : Bool :=
  match format with
  | "pdf" => dep.name == "pandoc" || dep.name == "xelatex"
  | "all" => dep.name == "pandoc" || dep.name == "xelatex"
  | "docx" => dep.name == "pandoc"
  | "html" => dep.name == "pandoc"
  | _ => dep.required

/-- `DependencyChecker::validate_for_build` (src/dependencies.rs lines
24-60): collect the required-but-missing dependencies; when any exist,
fail with the distinct `Dependency` error carrying the install hints. -/
def validate_for_build (env : ExtEnv) (format : String) : Except AutoDocError Unit :=
  match check_all env with
  | Except.error e => Except.error e
  | Except.ok deps =>
    let missing_required :=
      deps.filter (fun dep => required_for_format format dep && !dep.available)
    if missing_required.isEmpty then Except.ok ()
    else
      Except.error (AutoDocError.Dependency "multiple"
        (missing_required.foldl
          (fun msg dep =>
            msg ++ "  - " ++ dep.name ++ ": " ++ dep.install_hint.getD "Install manually" ++ "\n")
          ("Missing required dependencies for " ++ format ++ " format:\n")))

/-- `FileWatcher::build_format` (src/watcher.rs lines 92-129), with the
discovery result passed in: the empty-fragment check precedes any
converter invocation; formats dispatch to the builders (no dependency
validation on the watch path). -/
def build_format (env : ExtEnv) (config : ProjectConfig) (files : List MarkdownFile)
    (format : String) : Except AutoDocError Unit × List ConverterCall :=
  if files.isEmpty then
    (Except.error (AutoDocError.Build "No markdown files found"), [])
  else
    match format with
    | "pdf" => PdfBuilder.build env files (config.output_dir ++ "/" ++ config.name ++ ".pdf")
    | "docx" => DocxBuilder.build env files (config.output_dir ++ "/" ++ config.name ++ ".docx")
    | "html" => HtmlBuilder.build env files (config.output_dir ++ "/" ++ config.name ++ ".html")
    | _ =>
      (Except.error (AutoDocError.Build ("Unsupported format for watch: " ++ format)), [])

/-- The non-watch `Commands::Build` flow of `src/main.rs` (lines 151-223),
with the discovery result passed in: empty-fragment check first, then
dependency validation for the requested format, then the builder(s).
(The format is one of "pdf", "docx", "html", "all"; the CLI enum admits no
other value, so the catch-all branch is unreachable.) -/
def mainBuild (env : ExtEnv) (config : ProjectConfig) (files : List MarkdownFile)
    (format : String) : Except AutoDocError Unit × List ConverterCall :=
  if files.isEmpty then
    (Except.error (AutoDocError.Build "No markdown files found in current directory"), [])
  else
    match format with
    | "pdf" =>
      match validate_for_build env "pdf" with
      | Except.error e => (Except.error e, [])
      | Except.ok _ =>
        PdfBuilder.build env files (config.output_dir ++ "/" ++ config.name ++ ".pdf")
    | "docx" =>
      match validate_for_build env "docx" with
      | Except.error e => (Except.error e, [])
      | Except.ok _ =>
        DocxBuilder.build env files (config.output_dir ++ "/" ++ config.name ++ ".docx")
    | "html" =>
      match validate_for_build env "html" with
      | Except.error e => (Except.error e, [])
      | Except.ok _ =>
        HtmlBuilder.build env files (config.output_dir ++ "/" ++ config.name ++ ".html")
    | "all" =>
      match validate_for_build env "all" with
      | Except.error e => (Except.error e, [])
      | Except.ok _ =>
        let pdf := PdfBuilder.build env files (config.output_dir ++ "/" ++ config.name ++ ".pdf")
        match pdf.1 with
        | Except.error e => (Except.error e, pdf.2)
        | Except.ok _ =>
          let docx :=
            DocxBuilder.build env files (config.output_dir ++ "/" ++ config.name ++ ".docx")
          match docx.1 with
          | Except.error e => (Except.error e, pdf.2 ++ docx.2)
          | Except.ok _ =>
            let html :=
              HtmlBuilder.build env files (config.output_dir ++ "/" ++ config.name ++ ".html")
            (html.1, pdf.2 ++ docx.2 ++ html.2)
    | _ => (Except.ok (), [])

/-- Whether a build result failed with the dependency-missing category. -/
def isDependencyFailure : Except AutoDocError Unit → Bool
  | Except.error (AutoDocError.Dependency _ _) => true
  | _ => false

/-- C9: on an empty fragment list, both the watch-cycle path and the direct
build-command path fail with a "No markdown files found" build error before
any converter invocation (the call list is empty), for every format. The
direct path's message extends the watch path's by " in current directory". -/
theorem C9_empty_fragments_error_before_converter (env : ExtEnv) (config : ProjectConfig)
    (format : String) :
    build_format env config [] format =
      (Except.error (AutoDocError.Build "No markdown files found"), []) ∧
    mainBuild env config [] format =
      (Except.error (AutoDocError.Build "No markdown files found in current directory"), []) ∧
    ("No markdown files found").data.isPrefixOf
      ("No markdown files found in current directory").data = true :=
  ⟨rfl, rfl, rfl⟩

/-- C8: when the converter executable is not found, the build command fails
with the `Dependency` error category (and invokes no converter), while a
converter that runs but exits non-zero yields a `Build` error carrying its
stderr; the two categories are distinct constructors of the error type. -/
theorem C8_dependency_error_distinct_category :
    (∀ (env : ExtEnv) (config : ProjectConfig) (files : List MarkdownFile),
      env.pandocAvailable = false →
      files.isEmpty = false →
      (∀ e, env.versionRun "xelatex" ≠ SubprocessResult.execError e) →
      isDependencyFailure (mainBuild env config files "pdf").1 = true ∧
      (mainBuild env config files "pdf").2 = []) ∧
    (∀ (env : ExtEnv) (files : List MarkdownFile) (output_path stdout stderr : String),
      env.pandocRun (PdfBuilder.build_pandoc_args env files output_path
        (merge_metadata files)) = SubprocessResult.run false stdout stderr →
      (PdfBuilder.build env files output_path).1 =
        Except.error (AutoDocError.Build ("Pandoc failed: " ++ stderr))) ∧
    (∀ t h m, AutoDocError.Dependency t h ≠ AutoDocError.Build m) ∧
    (∀ m, isDependencyFailure (Except.error (AutoDocError.Build m)) = false) := by
  refine ⟨?_, ?_, ?_, fun m => rfl⟩
  · intro env config files hpandoc hfiles hx
    have hval : isDependencyFailure (validate_for_build env "pdf") = true := by
      cases hxa : env.xelatexAvailable
      · simp [validate_for_build, check_all, check_pandoc, check_xelatex,
          get_command_version, hpandoc, hxa, required_for_format, isDependencyFailure]
      · cases hv : env.versionRun "xelatex" with
        | execError e => exact absurd hv (hx e)
        | run success stdout stderr =>
          cases success <;>
            simp [validate_for_build, check_all, check_pandoc, check_xelatex,
              get_command_version, hpandoc, hxa, hv, required_for_format,
              isDependencyFailure, List.forall_mem_cons]
    cases hvv : validate_for_build env "pdf" with
    | ok u => rw [hvv] at hval; simp [isDependencyFailure] at hval
    | error e =>
      rw [hvv] at hval
      cases e with
      | Dependency t h => simp [mainBuild, hfiles, hvv, isDependencyFailure]
      | Io m => simp [isDependencyFailure] at hval
      | Yaml e2 => simp [isDependencyFailure] at hval
      | WalkDir m => simp [isDependencyFailure] at hval
      | Config m => simp [isDependencyFailure] at hval
      | Build m => simp [isDependencyFailure] at hval
      | FileNotFound m => simp [isDependencyFailure] at hval
  · intro env files output_path stdout stderr h
    simp [PdfBuilder.build, h]
  · intro t h m hc
    cases hc

/-- Witness for C8 at a concrete input: pandoc absent from the PATH, one
fragment present — the build command fails in the dependency-missing
category with no converter call. -/
theorem C8_dependency_error_distinct_category_witness :
    isDependencyFailure
      (mainBuild
        { pandocAvailable := false, xelatexAvailable := false,
          versionRun := fun _ => SubprocessResult.run true "" "",
          pandocRun := fun _ => SubprocessResult.run true "" "",
          template := none, docxTemplate := none, htmlTemplate := none,
          targetOs := "linux" }
        ProjectConfig.default [fileIntroB] "pdf").1 = true :=
  (C8_dependency_error_distinct_category.1
    { pandocAvailable := false, xelatexAvailable := false,
      versionRun := fun _ => SubprocessResult.run true "" "",
      pandocRun := fun _ => SubprocessResult.run true "" "",
      template := none, docxTemplate := none, htmlTemplate := none,
      targetOs := "linux" }
    ProjectConfig.default [fileIntroB] rfl rfl
    (fun _ h => SubprocessResult.noConfusion h)).1

/-! ## Natural-order sorting of discovered fragments
(`FileDiscovery::discover_and_parse_markdown_files`, src/discovery/mod.rs
lines 45-68, sorts by `natord::compare` over the file names; the `natord`
crate is a Rust port of Martin Pool's `strnatcmp.c` natural-order string
comparison, embedded here: runs of digits compare as numbers — by
left-aligned digit comparison when either run has a leading zero
("fractional" rule), by longest-run-then-first-difference otherwise — all
other characters compare by code point, and whitespace is skipped). -/

/-- Character comparison by code point (`char::cmp`). -/
def cmpChar (a b : Char) : Ordering :=
  if a.toNat < b.toNat then Ordering.lt
  else if b.toNat < a.toNat then Ordering.gt
  else Ordering.eq

/-- The "fractional" digit-run comparison (`compare_left` of strnatcmp):
left-aligned, first differing digit wins. -/
def compare_left : List Char → List Char → Ordering
  | [], [] => Ordering.eq
  | [], cb :: _ => if cb.isDigit then Ordering.lt else Ordering.eq
  | ca :: _, [] => if ca.isDigit then Ordering.gt else Ordering.eq
  | ca :: as, cb :: bs =>
    if !ca.isDigit && !cb.isDigit then Ordering.eq
    else if !ca.isDigit then Ordering.lt
    else if !cb.isDigit then Ordering.gt
    else
      match cmpChar ca cb with
      | Ordering.eq => compare_left as bs
      | o => o

/-- The integer digit-run comparison (`compare_right` of strnatcmp):
the longer run of digits wins; for equal lengths the first difference
(carried along as `bias`) wins. -/
def compare_right : List Char → List Char → Ordering → Ordering
  | [], [], bias => bias
  | [], cb :: _, bias => if cb.isDigit then Ordering.lt else bias
  | ca :: _, [], bias => if ca.isDigit then Ordering.gt else bias
  | ca :: as, cb :: bs, bias =>
    if !ca.isDigit && !cb.isDigit then bias
    else if !ca.isDigit then Ordering.lt
    else if !cb.isDigit then Ordering.gt
    else compare_right as bs (if bias = Ordering.eq then cmpChar ca cb else bias)

/-- Whitespace skip predicate (`char::is_whitespace`; the Rust predicate is
Unicode White_Space — it agrees with this one on ASCII, and filenames
compared here are ASCII). -/
def isWs (c : Char) : Bool := c.isWhitespace

/-- The main loop of the natural comparison, with explicit fuel (each
iteration consumes at least one character of the first list, so any fuel
above `a.length` yields the loop's true result — see `natord_go_fuel`).
Per iteration: skip whitespace on both sides; at a pair of digits compare
the two runs (fractional rule when either starts with `'0'`), returning a
difference; otherwise compare the two characters by code point; on ties
advance one character. -/
def natord_go : Nat → List Char → List Char → Ordering
  | 0, _, _ => Ordering.eq
  | fuel + 1, a, b =>
    match a.dropWhile isWs, b.dropWhile isWs with
    | [], [] => Ordering.eq
    | [], _ :: _ => Ordering.lt
    | _ :: _, [] => Ordering.gt
    | ca :: as, cb :: bs =>
      if ca.isDigit && cb.isDigit then
        match (if ca == '0' || cb == '0' then compare_left (ca :: as) (cb :: bs)
               else compare_right (ca :: as) (cb :: bs) Ordering.eq) with
        | Ordering.eq => natord_go fuel as bs
        | result => result
      else
        match cmpChar ca cb with
        | Ordering.eq => natord_go fuel as bs
        | o => o

/-- `natord::compare` on two strings (fuel chosen symmetric and ample). -/
def natord_compare (a b : String) : Ordering :=
  natord_go (a.data.length + b.data.length + 1) a.data b.data

theorem length_dropWhile_le {α : Type} (p : α → Bool) :
    ∀ l : List α, (l.dropWhile p).length ≤ l.length := by
  intro l
  induction l with
  | nil => simp
  | cons c cs ih =>
    by_cases h : p c = true
    · simp [List.dropWhile_cons, h]
      omega
    · simp [List.dropWhile_cons, h]

/-- The fuel is irrelevant above the first list's length: the loop consumes
at least one character of it per iteration. -/
theorem natord_go_fuel :
    ∀ (f1 : Nat) (a b : List Char) (f2 : Nat), a.length < f1 → a.length < f2 →
      natord_go f1 a b = natord_go f2 a b := by
  intro f1
  induction f1 with
  | zero => intro a b f2 h1; omega
  | succ n ih =>
    intro a b f2 h1 h2
    cases f2 with
    | zero => omega
    | succ m =>
      have hlen := length_dropWhile_le isWs a
      cases hda : a.dropWhile isWs with
      | nil => cases hdb : b.dropWhile isWs <;> simp [natord_go, hda, hdb]
      | cons ca as =>
        have has : as.length < n := by
          rw [hda] at hlen; simp at hlen; omega
        have has2 : as.length < m := by
          rw [hda] at hlen; simp at hlen; omega
        cases hdb : b.dropWhile isWs with
        | nil => simp [natord_go, hda, hdb]
        | cons cb bs =>
          simp only [natord_go, hda, hdb]
          by_cases hd : (ca.isDigit && cb.isDigit) = true
          · simp only [hd, if_true]
            cases (if ca = '0' || cb = '0' then compare_left (ca :: as) (cb :: bs)
                   else compare_right (ca :: as) (cb :: bs) Ordering.eq) <;>
              simp [ih as bs m has has2]
          · simp only [hd, if_false]
            cases cmpChar ca cb <;> simp [ih as bs m has has2]

theorem cmpChar_swap (a b : Char) : cmpChar b a = (cmpChar a b).swap := by
  unfold cmpChar
  split_ifs <;> simp [Ordering.swap]
  all_goals omega

theorem compare_left_swap : ∀ a b : List Char, compare_left b a = (compare_left a b).swap := by
  intro a
  induction a with
  | nil =>
    intro b
    cases b with
    | nil => rfl
    | cons cb bs => by_cases h : cb.isDigit = true <;> simp [compare_left, h, Ordering.swap]
  | cons ca as ih =>
    intro b
    cases b with
    | nil => by_cases h : ca.isDigit = true <;> simp [compare_left, h, Ordering.swap]
    | cons cb bs =>
      by_cases hca : ca.isDigit = true <;> by_cases hcb : cb.isDigit = true <;>
        simp [compare_left, hca, hcb, Ordering.swap]
      rw [cmpChar_swap ca cb]
      cases hc : cmpChar ca cb <;> simp [Ordering.swap, ih]

theorem compare_right_cons_digits {ca cb : Char} (hca : ca.isDigit = true)
    (hcb : cb.isDigit = true) (as bs : List Char) (bias : Ordering) :
    compare_right (ca :: as) (cb :: bs) bias =
      compare_right as bs (if bias = Ordering.eq then cmpChar ca cb else bias) := by
  simp [compare_right, hca, hcb]

theorem compare_right_swap :
    ∀ (a b : List Char) (bias : Ordering),
      compare_right b a bias.swap = (compare_right a b bias).swap := by
  intro a
  induction a with
  | nil =>
    intro b bias
    cases b with
    | nil => rfl
    | cons cb bs =>
      by_cases h : cb.isDigit = true <;> cases bias <;>
        simp [compare_right, h, Ordering.swap]
  | cons ca as ih =>
    intro b bias
    cases b with
    | nil =>
      by_cases h : ca.isDigit = true <;> cases bias <;>
        simp [compare_right, h, Ordering.swap]
    | cons cb bs =>
      by_cases hca : ca.isDigit = true <;> by_cases hcb : cb.isDigit = true
      · rw [compare_right_cons_digits hcb hca, compare_right_cons_digits hca hcb,
          ← ih bs (if bias = Ordering.eq then cmpChar ca cb else bias)]
        congr 1
        cases bias with
        | lt => simp [Ordering.swap]
        | gt => simp [Ordering.swap]
        | eq => simpa using cmpChar_swap ca cb
      · cases bias <;> simp [compare_right, hca, hcb, Ordering.swap]
      · cases bias <;> simp [compare_right, hca, hcb, Ordering.swap]
      · cases bias <;> simp [compare_right, hca, hcb, Ordering.swap]

theorem natord_go_swap :
    ∀ (fuel : Nat) (a b : List Char), natord_go fuel b a = (natord_go fuel a b).swap := by
  intro fuel
  induction fuel with
  | zero => intro a b; rfl
  | succ n ih =>
    intro a b
    simp only [natord_go]
    cases hda : a.dropWhile isWs with
    | nil => cases hdb : b.dropWhile isWs <;> rfl
    | cons ca as =>
      cases hdb : b.dropWhile isWs with
      | nil => rfl
      | cons cb bs =>
        by_cases hd : (ca.isDigit && cb.isDigit) = true
        · have hd2 : (cb.isDigit && ca.isDigit) = true := by rwa [Bool.and_comm]
          simp only [hd, hd2, if_true]
          rw [show (cb == '0' || ca == '0') = (ca == '0' || cb == '0') from Bool.or_comm _ _]
          by_cases h0 : (ca == '0' || cb == '0') = true
          · simp only [h0, if_true]
            rw [compare_left_swap (ca :: as) (cb :: bs)]
            cases hc : compare_left (ca :: as) (cb :: bs) <;>
              simp [Ordering.swap, ih as bs]
          · simp only [h0, if_false, Bool.false_eq_true]
            have hswap := compare_right_swap (ca :: as) (cb :: bs) Ordering.eq
            have heq : (Ordering.eq).swap = Ordering.eq := rfl
            rw [heq] at hswap
            rw [hswap]
            cases hc : compare_right (ca :: as) (cb :: bs) Ordering.eq <;>
              simp [Ordering.swap, ih as bs]
        · have hdf : (ca.isDigit && cb.isDigit) = false := Bool.eq_false_iff.mpr hd
          have hd2 : (cb.isDigit && ca.isDigit) = false := by rwa [Bool.and_comm]
          simp only [hdf, hd2, Bool.false_eq_true, if_false]
          rw [cmpChar_swap ca cb]
          cases hc : cmpChar ca cb <;> simp [Ordering.swap, ih as bs]

/-- The comparator of the `files.sort_by(..)` call: file `a` may precede
file `b` when `natord::compare` on the file names is not `Greater`. -/
def natLeB (a b : MarkdownFile) : Bool :=
  !(natord_compare (fileName a.path) (fileName b.path) == Ordering.gt)

theorem natord_compare_swap (a b : String) :
    natord_compare b a = (natord_compare a b).swap := by
  unfold natord_compare
  rw [show b.data.length + a.data.length + 1 = a.data.length + b.data.length + 1 by omega]
  exact natord_go_swap _ _ _

theorem natLeB_total (a b : MarkdownFile) : natLeB a b = true ∨ natLeB b a = true := by
  unfold natLeB
  by_cases h : natord_compare (fileName a.path) (fileName b.path) = Ordering.gt
  · right
    rw [natord_compare_swap, h]
    rfl
  · left
    cases hx : natord_compare (fileName a.path) (fileName b.path) with
    | lt => rfl
    | eq => rfl
    | gt => exact absurd hx h

/-- The sorting step of `discover_and_parse_markdown_files`
(src/discovery/mod.rs lines 59-65): a stable sort of the walked files under
the natural-order comparator on file names. (Rust's stable `sort_by` is
modelled as a stable insertion sort; for a total comparator any stable sort
produces the same list.) -/
def natInsert (f : MarkdownFile) : List MarkdownFile → List MarkdownFile
  | [] => [f]
  | g :: gs => if natLeB f g then f :: g :: gs else g :: natInsert f gs

def sortMarkdownFiles (files : List MarkdownFile) : List MarkdownFile :=
  files.foldr natInsert []

theorem natInsert_perm (f : MarkdownFile) :
    ∀ l : List MarkdownFile, List.Perm (natInsert f l) (f :: l) := by
  intro l
  induction l with
  | nil => exact List.Perm.refl _
  | cons g gs ih =>
    by_cases h : natLeB f g = true
    · simp [natInsert, h]
    · simp only [natInsert, h, if_false]
      exact (ih.cons g).trans (List.Perm.swap f g gs)

theorem sortMarkdownFiles_perm (files : List MarkdownFile) :
    List.Perm (sortMarkdownFiles files) files := by
  induction files with
  | nil => exact List.Perm.refl _
  | cons f fs ih => exact (natInsert_perm f _).trans (ih.cons f)

theorem natInsert_chain' (f : MarkdownFile) :
    ∀ l : List MarkdownFile, List.Chain' (fun a b => natLeB a b = true) l →
      List.Chain' (fun a b => natLeB a b = true) (natInsert f l) := by
  intro l
  induction l with
  | nil => intro _; simp [natInsert]
  | cons g gs ih =>
    intro hch
    rw [List.chain'_cons'] at hch
    obtain ⟨hhead, htail⟩ := hch
    by_cases h : natLeB f g = true
    · have hni : natInsert f (g :: gs) = f :: g :: gs := by simp [natInsert, h]
      rw [hni, List.chain'_cons']
      refine ⟨?_, ?_⟩
      · intro y hy
        have hyg : g = y := by simpa using hy
        subst hyg
        exact h
      · rw [List.chain'_cons']
        exact ⟨hhead, htail⟩
    · have hni : natInsert f (g :: gs) = g :: natInsert f gs := by simp [natInsert, h]
      rw [hni, List.chain'_cons']
      refine ⟨?_, ih htail⟩
      intro y hy
      cases gs with
      | nil =>
        have hyf : f = y := by simpa [natInsert] using hy
        subst hyf
        rcases natLeB_total f g with ht | ht
        · exact absurd ht h
        · exact ht
      | cons g2 gs2 =>
        by_cases h2 : natLeB f g2 = true
        · have hni2 : natInsert f (g2 :: gs2) = f :: g2 :: gs2 := by simp [natInsert, h2]
          rw [hni2] at hy
          have hyf : f = y := by simpa using hy
          subst hyf
          rcases natLeB_total f g with ht | ht
          · exact absurd ht h
          · exact ht
        · have hni2 : natInsert f (g2 :: gs2) = g2 :: natInsert f gs2 := by
            simp [natInsert, h2]
          rw [hni2] at hy
          have hyg : g2 = y := by simpa using hy
          subst hyg
          exact hhead g2 rfl

theorem sortMarkdownFiles_chain' (files : List MarkdownFile) :
    List.Chain' (fun a b => natLeB a b = true) (sortMarkdownFiles files) := by
  induction files with
  | nil => simp [sortMarkdownFiles]
  | cons f fs ih => exact natInsert_chain' f _ ih

/-- The three filenames of the spec's ordering test, ranked in the order
the claim requires. -/
def nameRank (f : MarkdownFile) : Nat :=
  if fileName f.path = "00-setup.md" then 0
  else if fileName f.path = "02-chapter.md" then 1
  else if fileName f.path = "10-appendix.md" then 2
  else 3

theorem natLeB_rank (f g : MarkdownFile)
    (hf : fileName f.path ∈ (["00-setup.md", "02-chapter.md", "10-appendix.md"] : List String))
    (hg : fileName g.path ∈ (["00-setup.md", "02-chapter.md", "10-appendix.md"] : List String))
    (h : natLeB f g = true) : nameRank f ≤ nameRank g := by
  simp only [List.mem_cons, List.not_mem_nil, or_false] at hf hg
  unfold natLeB at h
  unfold nameRank
  rcases hf with hf | hf | hf <;> rcases hg with hg | hg | hg <;> rw [hf, hg] at h ⊢ <;>
    first
      | decide
      | exact absurd h (by decide)

theorem chain_rank_of_restricted :
    ∀ l : List MarkdownFile,
      (∀ f ∈ l,
        fileName f.path ∈ (["00-setup.md", "02-chapter.md", "10-appendix.md"] : List String)) →
      List.Chain' (fun a b => natLeB a b = true) l →
      List.Chain' (fun a b => nameRank a ≤ nameRank b) l := by
  intro l
  induction l with
  | nil => intro _ _; exact List.chain'_nil
  | cons a t ih =>
    intro hmem hch
    rw [List.chain'_cons'] at hch ⊢
    obtain ⟨hhead, htail⟩ := hch
    refine ⟨?_, ih (fun f hf => hmem f (List.mem_cons_of_mem a hf)) htail⟩
    intro y hy
    have hym : y ∈ t := by
      cases t with
      | nil => simp at hy
      | cons b bs =>
        have hyb : b = y := by simpa using hy
        subst hyb
        exact List.mem_cons_self _ _
    exact natLeB_rank a y (hmem a (List.mem_cons_self a t))
      (hmem y (List.mem_cons_of_mem a hym)) (hhead y hy)

def fileApp10 : MarkdownFile := mkFile "10-appendix.md" DocumentMetadata.default
def fileChap02 : MarkdownFile := mkFile "02-chapter.md" DocumentMetadata.default
def fileSetup00 : MarkdownFile := mkFile "00-setup.md" DocumentMetadata.default

/-- C3: discovery sorts the walked fragment files by the natural comparison
of their filenames: the result is a permutation of the input that is sorted
under the natural-order comparator (each file may precede the next), the
spec's concrete test holds (`10-appendix, 02-chapter, 00-setup` sorts to
`00-setup, 02-chapter, 10-appendix` — numeric-visual, not positional,
order), and for every input drawn from those three filenames every
`00-setup.md` entry precedes every `02-chapter.md` entry, which precedes
every `10-appendix.md` entry (pairwise, by rank). -/
theorem C3_natural_order_sort (files : List MarkdownFile) :
    List.Perm (sortMarkdownFiles files) files ∧
    List.Chain' (fun a b => natLeB a b = true) (sortMarkdownFiles files) ∧
    sortMarkdownFiles [fileApp10, fileChap02, fileSetup00] =
      [fileSetup00, fileChap02, fileApp10] ∧
    (∀ files2 : List MarkdownFile,
      (∀ f ∈ files2,
        fileName f.path ∈ (["00-setup.md", "02-chapter.md", "10-appendix.md"] : List String)) →
      List.Pairwise (fun a b => nameRank a ≤ nameRank b) (sortMarkdownFiles files2)) := by
  refine ⟨sortMarkdownFiles_perm files, sortMarkdownFiles_chain' files, by decide, ?_⟩
  intro files2 hmem
  have hmem2 : ∀ f ∈ sortMarkdownFiles files2,
      fileName f.path ∈ (["00-setup.md", "02-chapter.md", "10-appendix.md"] : List String) :=
    fun f hf => hmem f ((sortMarkdownFiles_perm files2).mem_iff.mp hf)
  haveI : IsTrans MarkdownFile (fun a b => nameRank a ≤ nameRank b) :=
    ⟨fun _ _ _ => Nat.le_trans⟩
  exact List.chain'_iff_pairwise.mp
    (chain_rank_of_restricted (sortMarkdownFiles files2) hmem2
      (sortMarkdownFiles_chain' files2))

/-- Witness for C3 at a concrete input: the restricted pairwise ordering
instantiated on the spec's three files (hypothesis discharged by
evaluation), together with the concrete sorted order. -/
theorem C3_natural_order_sort_witness :
    List.Pairwise (fun a b => nameRank a ≤ nameRank b)
      (sortMarkdownFiles [fileApp10, fileChap02, fileSetup00]) :=
  (C3_natural_order_sort []).2.2.2 [fileApp10, fileChap02, fileSetup00] (by decide)

end AutoDoc
